import Mathlib

/-!
Verification of the FAT16/FAT32 filesystem core (embedded-sdmmc).

This file gives a shallow embedding of the Rust sources into Lean:
pure functions over natural numbers stand for the `u8`/`u16`/`u32`
computations, machine arithmetic is made explicit with `% 2 ^ w` where
overflow or masking occurs, and the fallible constructors are embedded
as `Except`/`Option` valued functions.  Each embedded definition keeps
the name of the Rust item it is translated from.  The theorems at the
end of the file settle the specification claims against this embedding.
-/

instance {ε α : Type} [DecidableEq ε] [DecidableEq α] : DecidableEq (Except ε α) := fun x y =>
match x, y with
| .ok a, .ok b =>
  if h : a = b then .isTrue (h ▸ rfl) else .isFalse (fun hc => h (Except.ok.inj hc))
| .error a, .error b =>
  if h : a = b then .isTrue (h ▸ rfl) else .isFalse (fun hc => h (Except.error.inj hc))
| .ok _, .error _ => .isFalse (fun hc => Except.noConfusion hc)
| .error _, .ok _ => .isFalse (fun hc => Except.noConfusion hc)

namespace SdMmc

/-- Little-endian `u16::from_le_bytes` on two byte values
(bytes are taken modulo 256, as every Rust `u8` satisfies). -/
def u16le (b0 b1 : Nat) : Nat :=
b0 % 256 + 256 * (b1 % 256)

/-- Little-endian `u32::from_le_bytes` on four byte values. -/
def u32le (b0 b1 b2 b3 : Nat) : Nat :=
b0 % 256 + 256 * (b1 % 256) + 65536 * (b2 % 256) + 16777216 * (b3 % 256)

theorem u16le_lt (b0 b1 : Nat) : u16le b0 b1 < 65536 := by
have h0 : b0 % 256 < 256 := Nat.mod_lt _ (by norm_num)
have h1 : b1 % 256 < 256 := Nat.mod_lt _ (by norm_num)
unfold u16le
omega

theorem u32le_lt (b0 b1 b2 b3 : Nat) : u32le b0 b1 b2 b3 < 4294967296 := by
have h0 : b0 % 256 < 256 := Nat.mod_lt _ (by norm_num)
have h1 : b1 % 256 < 256 := Nat.mod_lt _ (by norm_num)
have h2 : b2 % 256 < 256 := Nat.mod_lt _ (by norm_num)
have h3 : b3 % 256 < 256 := Nat.mod_lt _ (by norm_num)
unfold u32le
omega

/-- A 512-byte sector, embedded as a byte-valued function on offsets.
(`Block` in the source; its `contents` array is `[u8; 512]`.) -/
def Block := Nat → Nat

/-- `FatType` (src/src/fat/mod.rs): the volume flavour tag. -/
inductive FatType
| fat16
| fat32
deriving DecidableEq

namespace Entry

/-- `Entry::is_free` (src/src/fat/mod.rs, lines 268-273).
For FAT32 the value is first masked with `0x0FFFFFFF`; `x & 0x0FFFFFFF`
equals `x % 2 ^ 28` because the mask is the 28 low bits all set. -/
def is_free (ft : FatType) (e : Nat) : Bool :=
match ft with
| .fat16 => e == 0
| .fat32 => e % 2 ^ 28 == 0

/-- `Entry::is_final` (src/src/fat/mod.rs, lines 275-288):
FAT16: equal to `FAT16_FINAL = 0xFFFF` or in the reserved range
`0xFFF8 ..= 0xFFFE`.  FAT32: `Entry(self.0 & 0xFFFFFFF)` is compared to
the constant `FAT32_FINAL = Entry(0xFFFFFFFF)` as it stands, i.e. the
28-bit-masked value against the unmasked 32-bit constant (which no
masked value can ever equal), or the unmasked value lies in the
reserved range `0x0FFFFFF8 ..= 0x0FFFFFFE`. -/
def is_final (ft : FatType) (e : Nat) : Bool :=
match ft with
| .fat16 => e == 0xFFFF || (0xFFF8 ≤ e && e ≤ 0xFFFE)
| .fat32 => e % 2 ^ 28 == 0xFFFFFFFF || (0xFFFFFF8 ≤ e && e ≤ 0xFFFFFFE)

end Entry

/-- The entry value decoded by `FatVolume::get_fat_entry`
(src/src/fat/mod.rs, lines 135-149) from the FAT sector bytes at the
entry's byte offset: a little-endian `u16` for FAT16, a little-endian
`u32` masked with `0x0FFFFFFF` for FAT32. -/
def get_fat_entry_value (ft : FatType) (sector : Block) (off : Nat) : Nat :=
match ft with
| .fat16 => u16le (sector off) (sector (off + 1))
| .fat32 => u32le (sector off) (sector (off + 1)) (sector (off + 2)) (sector (off + 3)) % 2 ^ 28

/-- The decision made by `Cluster::find_next` (src/src/fat/mod.rs,
lines 312-328) on the entry value it fetched: `None` when the entry is
final or free, otherwise `Some` of a cluster carrying the entry value. -/
def find_next_decision (ft : FatType) (e : Nat) : Option Nat :=
if Entry.is_final ft e || Entry.is_free ft e then none else some e

/-- The spec's FINAL / end-of-chain ranges (spec section 3): FAT16
`0xFFF8 ..= 0xFFFF`, FAT32 `0x0FFFFFF8 ..= 0x0FFFFFFF`. -/
def spec_final_range (ft : FatType) (e : Nat) : Prop :=
match ft with
| .fat16 => 0xFFF8 ≤ e ∧ e ≤ 0xFFFF
| .fat32 => 0x0FFFFFF8 ≤ e ∧ e ≤ 0x0FFFFFFF

instance (ft : FatType) (e : Nat) : Decidable (spec_final_range ft e) := by
unfold spec_final_range
cases ft <;> infer_instance

theorem get_fat_entry_value_bound (ft : FatType) (sector : Block) (off : Nat) :
    get_fat_entry_value ft sector off <
      match ft with
      | .fat16 => 65536
      | .fat32 => 2 ^ 28 := by
cases ft with
| fat16 => exact u16le_lt _ _
| fat32 => exact Nat.mod_lt _ (by norm_num)

/-- A FAT32 FAT sector holding raw bytes `FF FF FF FF`: the canonical
end-of-chain marker written by formatters; `get_fat_entry` masks the
decoded `u32` to `0x0FFFFFFF`. -/
def c1_sector : Block := fun _ => 0xFF

/-- C1 (refuted, code bug): the entry decoded from raw bytes
`FF FF FF FF` on a FAT32 volume is `0x0FFFFFFF`, squarely inside the
spec's FINAL range, yet `Entry::is_final` rejects it — the source
compares the 28-bit-masked entry against the unmasked constant
`FAT32_FINAL = 0xFFFFFFFF`, which can never match — so
`Cluster::find_next` returns `Some(Cluster(0x0FFFFFFF))` where the
claim requires `None`. -/
theorem find_next_not_none_at_fat32_eoc :
    get_fat_entry_value .fat32 c1_sector 0 = 0x0FFFFFFF ∧
    spec_final_range .fat32 0x0FFFFFFF ∧
    Entry.is_final .fat32 0x0FFFFFFF = false ∧
    Entry.is_free .fat32 0x0FFFFFFF = false ∧
    find_next_decision .fat32 (get_fat_entry_value .fat32 c1_sector 0) = some 0x0FFFFFFF := by
decide

/-! ## BIOS parameter block (src/src/fat/bios_param_block.rs) -/

namespace BiosParameterBlock

/-- `Fat32BpbError` (bios_param_block.rs, lines 55-63). -/
inductive Fat32BpbError
| count16NotZero
| fatSize16NotZero
| rootEntryCountNotZero
| fsVerNotZero
| rootClusterLessThanTwo
| invalidBackupBootSector (v : Nat)
deriving DecidableEq

/-- `BpbError` (bios_param_block.rs, lines 40-53). -/
inductive BpbError
| fat12NotSupported
| fat32Field (s : String)
| invalidMedia (v : Nat)
| bothSectorCountsZero
| bothSectorCountsNotZero
| rootEntryCountSize
| fat32 (e : Fat32BpbError)
| invalidBytesPerSector (v : Nat)
| invalidSectorsPerCluster (v : Nat)
| reservedSectorCountZero
| invalidSignature (b0 b1 : Nat)
deriving DecidableEq

/-- `FatInfo` (bios_param_block.rs, lines 7-16): the FAT32 variant
carries the root cluster number. -/
inductive FatInfo
| fat16
| fat32 (root_cluster : Nat)
deriving DecidableEq

/-- The parsed `BiosParameterBlock` structure (bios_param_block.rs,
lines 27-38). -/
structure Bpb where
  fat_info : FatInfo
  fat_size : Nat
  reserved_sector_count : Nat
  bytes_per_sector : Nat
  media : Nat
  root_entry_count : Nat
  cluster_count : Nat
  num_fats : Nat
  sectors_per_cluster : Nat
deriving DecidableEq

/-! Raw little-endian field accessors of `BiosParameterBlockRaw`
(bios_param_block.rs, lines 431-455; the `define_field!` macro decodes
`u16`/`u32` fields with `from_le_bytes` at the given offset). -/

def bytes_per_sec (b : Block) : Nat := u16le (b 11) (b 12)

def sec_per_clu (b : Block) : Nat := b 13 % 256

def rsvd_sec_cnt (b : Block) : Nat := u16le (b 14) (b 15)

def num_fats (b : Block) : Nat := b 16 % 256

def root_ent_cnt (b : Block) : Nat := u16le (b 17) (b 18)

def tot_sec_16 (b : Block) : Nat := u16le (b 19) (b 20)

def media (b : Block) : Nat := b 21 % 256

def fat_sz_16 (b : Block) : Nat := u16le (b 22) (b 23)

def tot_sec_32 (b : Block) : Nat := u32le (b 32) (b 33) (b 34) (b 35)

def fat_sz_32 (b : Block) : Nat := u32le (b 36) (b 37) (b 38) (b 39)

def fs_ver (b : Block) : Nat := u16le (b 42) (b 43)

def root_clus (b : Block) : Nat := u32le (b 44) (b 45) (b 46) (b 47)

def bk_boot_sec (b : Block) : Nat := u16le (b 50) (b 51)

/-- `u32` wrap-around addition (release-mode Rust `+` on `u32`). -/
def add32 (a b : Nat) : Nat := (a + b) % 2 ^ 32

/-- `u32` wrap-around subtraction (release-mode Rust `-` on `u32`);
both arguments are below `2 ^ 32` wherever this is used. -/
def sub32 (a b : Nat) : Nat := (a + 2 ^ 32 - b) % 2 ^ 32

/-- `u32` wrap-around multiplication (release-mode Rust `*` on `u32`). -/
def mul32 (a b : Nat) : Nat := a * b % 2 ^ 32

/-- `bytes_per_sector_checked` (bios_param_block.rs, lines 294-300). -/
def bytes_per_sector_checked (v : Nat) : Except BpbError Nat :=
if v = 512 ∨ v = 1024 ∨ v = 2048 ∨ v = 4096 then .ok v else .error (.invalidBytesPerSector v)

/-- `sectors_per_cluster_checked` (bios_param_block.rs, lines 268-278). -/
def sectors_per_cluster_checked (v : Nat) : Except BpbError Nat :=
if v = 1 ∨ v = 2 ∨ v = 4 ∨ v = 8 ∨ v = 16 ∨ v = 32 ∨ v = 64 ∨ v = 128 then .ok v
else .error (.invalidSectorsPerCluster v)

/-- `media_checked` (bios_param_block.rs, lines 302-312). -/
def media_checked (v : Nat) : Except BpbError Nat :=
if v = 0xF0 ∨ v = 0xF8 ∨ v = 0xF9 ∨ v = 0xFA ∨ v = 0xFB ∨ v = 0xFC ∨ v = 0xFD ∨ v = 0xFE ∨
    v = 0xFF then
  .ok v
else .error (.invalidMedia v)

/-- `total_sector_count_checked` (bios_param_block.rs, lines 280-292). -/
def total_sector_count_checked (b : Block) : Except BpbError Nat :=
let sec_16 := tot_sec_16 b
let sec_32 := tot_sec_32 b
if sec_16 = 0 ∧ sec_32 ≠ 0 then .ok sec_32
else if sec_32 = 0 ∧ sec_16 ≠ 0 then .ok sec_16
else if sec_32 ≠ 0 ∧ sec_16 ≠ 0 then .error .bothSectorCountsNotZero
else .error .bothSectorCountsZero

/-- `compute_root_dir_sectors` (bios_param_block.rs, lines 183-185). -/
def compute_root_dir_sectors (root_entry_count bytes_per_sector : Nat) : Nat :=
(root_entry_count * 32 + (bytes_per_sector - 1)) / bytes_per_sector

/-- `compute_data_sectors` (bios_param_block.rs, lines 239-247). -/
def compute_data_sectors
    (fat_size total_sector_count reserved_sectors nfats root_dir_sectors : Nat) : Nat :=
sub32 total_sector_count (add32 (add32 reserved_sectors (mul32 nfats fat_size)) root_dir_sectors)

/-- `compute_cluster_count` (bios_param_block.rs, lines 248-250). -/
def compute_cluster_count (data_sectors sectors_per_cluster : Nat) : Nat :=
data_sectors / sectors_per_cluster

/-- `fs_version_checked` (bios_param_block.rs, lines 384-390).
Marked `#[allow(dead_code)]` in the source and never invoked. -/
def fs_version_checked (v : Nat) : Except BpbError Nat :=
if v = 0 then .ok v else .error (.fat32 .fsVerNotZero)

/-- `root_cluster_checked` (bios_param_block.rs, lines 393-399). -/
def root_cluster_checked (v : Nat) : Except BpbError Nat :=
if 2 ≤ v then .ok v else .error (.fat32 .rootClusterLessThanTwo)

/-- `bk_boot_sector_checked` (bios_param_block.rs, lines 402-410).
Marked `#[allow(dead_code)]` in the source and never invoked. -/
def bk_boot_sector_checked (v : Nat) : Except BpbError Nat :=
if v = 0 ∨ v = 6 then .ok v else .error (.fat32 (.invalidBackupBootSector v))

/-- `compute_fat_type` (bios_param_block.rs, lines 252-266), taking the
derived cluster count and the raw `root_clus` field. -/
def compute_fat_type (cluster_count root_clus_raw : Nat) : Except BpbError FatInfo :=
if cluster_count < 4085 then .error .fat12NotSupported
else if cluster_count < 65525 then .ok .fat16
else
  match root_cluster_checked root_clus_raw with
  | .ok v => .ok (.fat32 v)
  | .error e => .error e

/-- `verify_signature` (bios_param_block.rs, lines 373-379). -/
def verify_signature (s0 s1 : Nat) : Option BpbError :=
if s0 = 0x55 ∧ s1 = 0xAA then none else some (.invalidSignature s0 s1)

/-- `verify_root_entry_count` (bios_param_block.rs, lines 334-354). -/
def verify_root_entry_count (fi : FatInfo) (root_entry_count bytes_per_sector : Nat) :
    Option BpbError :=
match fi with
| .fat16 =>
  if root_entry_count * 32 % bytes_per_sector = 0 then none else some .rootEntryCountSize
| .fat32 _ =>
  if root_entry_count ≠ 0 then some (.fat32 .rootEntryCountNotZero) else none

/-- `verify_total_sector_count` (bios_param_block.rs, lines 314-332). -/
def verify_total_sector_count (fi : FatInfo) (fs_16 fs_32 : Nat) : Option BpbError :=
if fs_16 = 0 ∧ fs_32 = 0 then some .bothSectorCountsZero
else
  match fi with
  | .fat16 => none
  | .fat32 _ => if fs_16 = 0 then none else some (.fat32 .count16NotZero)

/-- `verify_fat_size` (bios_param_block.rs, lines 356-370). -/
def verify_fat_size (fi : FatInfo) (fs_16 : Nat) : Option BpbError :=
match fi with
| .fat16 => none
| .fat32 _ => if fs_16 = 0 then none else some (.fat32 .fatSize16NotZero)

/-- `BiosParameterBlock::new` (bios_param_block.rs, lines 99-161),
translated step for step, including the final `or_else` chain of
verifications.  Note that `fs_version_checked` and
`bk_boot_sector_checked` do not appear: the source never calls them. -/
def new (b : Block) : Except BpbError Bpb := do
let rsvd := rsvd_sec_cnt b
if rsvd = 0 then throw .reservedSectorCountZero
let bps ← bytes_per_sector_checked (bytes_per_sec b)
let size_16 := fat_sz_16 b
let size_32 := fat_sz_32 b
let fat_size := if size_16 = 0 then size_32 else size_16
let spc ← sectors_per_cluster_checked (sec_per_clu b)
let med ← media_checked (media b)
let root_entry_count := root_ent_cnt b
let total_sector_count ← total_sector_count_checked b
let root_dir_sectors := compute_root_dir_sectors root_entry_count bps
let data_sectors := compute_data_sectors fat_size total_sector_count rsvd (num_fats b)
  root_dir_sectors
let cluster_count := compute_cluster_count data_sectors spc
let fat_info ← compute_fat_type cluster_count (root_clus b)
let me : Bpb :=
  { fat_info := fat_info
    fat_size := fat_size
    reserved_sector_count := rsvd
    bytes_per_sector := bps
    media := med
    root_entry_count := root_entry_count
    cluster_count := cluster_count
    num_fats := num_fats b
    sectors_per_cluster := spc }
let verification_error :=
  ((verify_signature (b 510 % 256) (b 511 % 256)).orElse fun _ =>
    (verify_root_entry_count fat_info root_entry_count bps).orElse fun _ =>
      (verify_total_sector_count fat_info (tot_sec_16 b) (tot_sec_32 b)).orElse fun _ =>
        verify_fat_size fat_info size_16)
match verification_error with
| some err => throw err
| none => pure me

/-- A concrete sector-0 block of a FAT32 volume that passes every check
`new` performs, but has `fs_version = 1` (offset 42) and
`backup_boot_sector = 7` (offset 50).  Geometry: 512 bytes per sector,
1 sector per cluster, 1 reserved sector, 1 FAT of 512 sectors,
66050 total sectors, hence 65537 clusters (FAT32 territory). -/
def c4_block : Block := fun i =>
if i = 12 then 2
else if i = 13 then 1
else if i = 14 then 1
else if i = 16 then 1
else if i = 21 then 0xF8
else if i = 32 then 2
else if i = 33 then 2
else if i = 34 then 1
else if i = 37 then 2
else if i = 42 then 1
else if i = 44 then 2
else if i = 50 then 7
else if i = 510 then 0x55
else if i = 511 then 0xAA
else 0

/-- C4 (refuted, code bug): on `c4_block` the `fs_version` field is 1
and the `backup_boot_sector` field is 7, the helper checks
`fs_version_checked` / `bk_boot_sector_checked` would reject both with
exactly the claimed errors, yet `BiosParameterBlock::new` accepts the
block: the two helpers are dead code, never called from `new`. -/
theorem bpb_new_skips_fat32_version_and_backup_checks :
    fs_ver c4_block = 1 ∧
    bk_boot_sec c4_block = 7 ∧
    fs_version_checked (fs_ver c4_block) = .error (.fat32 .fsVerNotZero) ∧
    bk_boot_sector_checked (bk_boot_sec c4_block) =
      .error (.fat32 (.invalidBackupBootSector 7)) ∧
    new c4_block = .ok
      { fat_info := .fat32 2, fat_size := 512, reserved_sector_count := 1,
        bytes_per_sector := 512, media := 0xF8, root_entry_count := 0,
        cluster_count := 65537, num_fats := 1, sectors_per_cluster := 1 } := by
decide

/-- C9: `compute_fat_type` classifies by the derived cluster count:
below 4085 the volume is rejected as FAT12, from 4085 below 65525 it is
FAT16, and from 65525 on it is FAT32 (carrying the root cluster, which
the FAT32 path additionally requires to be at least 2). -/
theorem compute_fat_type_classifies (cc rc : Nat) :
    (cc < 4085 → compute_fat_type cc rc = .error .fat12NotSupported) ∧
    (4085 ≤ cc → cc < 65525 → compute_fat_type cc rc = .ok .fat16) ∧
    (65525 ≤ cc → 2 ≤ rc → compute_fat_type cc rc = .ok (.fat32 rc)) := by
refine ⟨fun h => ?_, fun h1 h2 => ?_, fun h1 h2 => ?_⟩
· unfold compute_fat_type
  rw [if_pos h]
· unfold compute_fat_type
  rw [if_neg (by omega), if_pos h2]
· unfold compute_fat_type
  rw [if_neg (by omega), if_neg (by omega)]
  unfold root_cluster_checked
  rw [if_pos h2]

/-- Witness for C9 at cluster counts 4000, 5000 and 70000. -/
theorem compute_fat_type_classifies_witness :
    compute_fat_type 4000 5 = .error .fat12NotSupported ∧
    compute_fat_type 5000 5 = .ok .fat16 ∧
    compute_fat_type 70000 5 = .ok (.fat32 5) :=
⟨(compute_fat_type_classifies 4000 5).1 (by decide),
 (compute_fat_type_classifies 5000 5).2.1 (by decide) (by decide),
 (compute_fat_type_classifies 70000 5).2.2 (by decide) (by decide)⟩

end BiosParameterBlock

/-! ## Single-sector byte cache (src/src/fat/block_byte_cache.rs) -/

namespace BlockByteCache

/-- The state of `BlockByteCache` (block_byte_cache.rs, lines 7-19).
`current_cache` additionally remembers the index of the sector the
buffered block was read from.  Modelled from the spec: the sector
identity surfaced by `read` (spec section 4.6, needed by directory
decoding) is not kept by the `read` in src, whose signature returns
only the byte count; everything else is translated from the source. -/
structure Cache where
  byte_index : Nat
  current_cache : Option (Nat × Block)
  total_read : Nat
  total_len : Option Nat

/-- One upstream step for `more_data`: `sectors.next(volume)` produced
the sector index, and `volume.block_device.read_block` on it either
produced a block (`some`) or a device error (`none`).  An exhausted
upstream iterator is the empty list. -/
inductive Pull
| sector (idx : Nat) (result : Option Block)

/-- `BlockByteCache::all_cached_bytes_read` (block_byte_cache.rs,
lines 59-67). -/
def all_cached_bytes_read (c : Cache) : Bool :=
let read_all_bytes :=
  match c.total_len with
  | some total_len => total_len - c.total_read == 0
  | none => false
c.current_cache.isNone || read_all_bytes

/-- `BlockByteCache::feed` (block_byte_cache.rs, lines 54-57). -/
def feed (c : Cache) (s : Nat × Block) : Cache :=
{ c with current_cache := some s, byte_index := 0 }

/-- `BlockByteCache::more_data` (block_byte_cache.rs, lines 37-51):
returns the boolean result, the new cache state, and the remaining
upstream; the upstream list shrinks exactly when a pull happened. -/
def more_data (c : Cache) (up : List Pull) : Bool × Cache × List Pull :=
if all_cached_bytes_read c then
  match up with
  | [] => (false, c, [])
  | .sector _ none :: rest => (false, c, rest)
  | .sector idx (some blk) :: rest => (true, feed c (idx, blk), rest)
else (true, c, up)

/-- `BlockByteCache::read` (block_byte_cache.rs, lines 76-99) reading
into a buffer of length `data_len`: returns the byte count, the bytes
copied, the surfaced sector index (spec section 4.6), and the new
state. -/
def read (c : Cache) (data_len : Nat) : Nat × List Nat × Option Nat × Cache :=
match c.current_cache with
| none => (0, [], none, c)
| some (idx, blk) =>
  let total_left :=
    match c.total_len with
    | some total_len => total_len - c.total_read
    | none => 512
  let data_to_read := min (min data_len (512 - c.byte_index)) total_left
  let bytes := (List.range data_to_read).map (fun j => blk (c.byte_index + j))
  let c' : Cache :=
    { c with
      byte_index := c.byte_index + data_to_read
      total_read := c.total_read + data_to_read
      current_cache :=
        if c.byte_index + data_to_read == 512 then none else c.current_cache }
  (data_to_read, bytes, some idx, c')

/-- The cache state `File::from_dir_entry` builds for a file of
`file_size` bytes (src/src/fat/file.rs, lines 35-53:
`BlockByteCache::new(Some(file_size), sectors)`). -/
def initial_cache (file_size : Nat) : Cache :=
{ byte_index := 0, current_cache := none, total_read := 0, total_len := some file_size }

/-- A concrete cache state whose cumulative counter has reached its
ceiling of 10 bytes while a sector is still buffered. -/
def c5_cache : Cache :=
{ byte_index := 10, current_cache := some (7, fun _ => 0), total_read := 10,
  total_len := some 10 }

/-- A one-sector upstream for the C5 counterexample. -/
def c5_up : List Pull := [.sector 9 (some fun _ => 0)]

/-- C5 counterexample: with the cumulative counter equal to the length
ceiling (10 of 10 bytes read) and a sector still buffered, `more_data`
still pulls the next sector from the upstream iterator (the upstream
list is consumed) and triggers its device read, returning `true`. -/
theorem more_data_pulls_at_ceiling :
    c5_cache.total_len = some c5_cache.total_read ∧
    c5_cache.current_cache.isSome = true ∧
    (more_data c5_cache c5_up).1 = true ∧
    (more_data c5_cache c5_up).2.2 = [] :=
⟨rfl, rfl, rfl, rfl⟩

/-- C5 amended: `more_data` pulls from the upstream iterator exactly
when `all_cached_bytes_read` holds, i.e. when no sector is buffered or
when the cumulative counter has reached the ceiling; otherwise it
leaves everything unchanged and returns `true`.  When it pulls, an
exhausted upstream or a failed device read yields `false`, a fetched
block is fed into the cache and yields `true`. -/
theorem more_data_pull_characterization (c : Cache) (up : List Pull) :
    (all_cached_bytes_read c = false → more_data c up = (true, c, up)) ∧
    (all_cached_bytes_read c = true → up = [] → more_data c up = (false, c, [])) ∧
    (∀ idx rest, all_cached_bytes_read c = true → up = .sector idx none :: rest →
      more_data c up = (false, c, rest)) ∧
    (∀ idx blk rest, all_cached_bytes_read c = true → up = .sector idx (some blk) :: rest →
      more_data c up = (true, feed c (idx, blk), rest)) := by
refine ⟨fun h => ?_, fun h hup => ?_, fun idx rest h hup => ?_, fun idx blk rest h hup => ?_⟩
· unfold more_data
  rw [h]
  simp
· unfold more_data
  rw [h, hup]
  rfl
· unfold more_data
  rw [h, hup]
  rfl
· unfold more_data
  rw [h, hup]
  rfl

/-- A cache state that is mid-sector and below its ceiling, so
`all_cached_bytes_read` is false. -/
def c5_mid : Cache :=
{ byte_index := 0, current_cache := some (3, fun _ => 0), total_read := 0,
  total_len := some 10 }

/-- Witness for the amended C5 theorem, exercising all four branches at
concrete states. -/
theorem more_data_pull_characterization_witness :
    more_data c5_mid [] = (true, c5_mid, []) ∧
    more_data (initial_cache 10) [] = (false, initial_cache 10, []) ∧
    more_data (initial_cache 10) [.sector 3 none] = (false, initial_cache 10, []) ∧
    more_data (initial_cache 10) [.sector 3 (some fun _ => 7)] =
      (true, feed (initial_cache 10) (3, fun _ => 7), []) := by
refine ⟨?_, ?_, ?_, ?_⟩
· exact (more_data_pull_characterization c5_mid []).1 rfl
· exact (more_data_pull_characterization (initial_cache 10) []).2.1 rfl rfl
· exact (more_data_pull_characterization (initial_cache 10) [.sector 3 none]).2.2.1 3 [] rfl rfl
· exact (more_data_pull_characterization (initial_cache 10)
    [.sector 3 (some fun _ => 7)]).2.2.2 3 (fun _ => 7) [] rfl rfl

theorem more_data_preserves_counters (c : Cache) (up : List Pull) :
    (more_data c up).2.1.total_read = c.total_read ∧
    (more_data c up).2.1.total_len = c.total_len := by
unfold more_data
split
· match up with
  | [] => exact ⟨rfl, rfl⟩
  | .sector _ none :: rest => exact ⟨rfl, rfl⟩
  | .sector idx (some blk) :: rest => exact ⟨rfl, rfl⟩
· exact ⟨rfl, rfl⟩

theorem read_counter_delta (c : Cache) (d : Nat) :
    (read c d).2.2.2.total_read = c.total_read + (read c d).1 ∧
    (read c d).2.2.2.total_len = c.total_len := by
unfold read
match c, rfl1 : c.current_cache with
| c, none => exact ⟨rfl, rfl⟩
| c, some (idx, blk) => exact ⟨rfl, rfl⟩

theorem read_respects_ceiling (c : Cache) (d fs : Nat)
    (hlen : c.total_len = some fs) (htr : c.total_read ≤ fs) :
    (read c d).2.2.2.total_read ≤ fs := by
unfold read
match c, rfl1 : c.current_cache with
| c, none => exact htr
| c, some (idx, blk) =>
  simp only [hlen]
  have hle : min (min d (512 - c.byte_index)) (fs - c.total_read) ≤ fs - c.total_read :=
    Nat.min_le_right _ _
  omega

end BlockByteCache

/-! ## File streaming: `ActiveFile::read` (src/src/fat/file.rs) -/

namespace ActiveFile

open BlockByteCache

/-- The loop of `ActiveFile::read` (file.rs, lines 134-155): pull
through the byte cache until the buffer is full, the cache reports no
more data, or a zero-byte read occurs.  The first argument is fuel;
`read` below supplies enough for the loop to run to completion, since
every continuing iteration shrinks the remaining buffer by at least one
byte. -/
def read_loop : Nat → Cache → List Pull → Nat → Nat × Cache × List Pull
| 0, c, up, _ => (0, c, up)
| _ + 1, c, up, 0 => (0, c, up)
| fuel + 1, c, up, data_len + 1 =>
  let md := more_data c up
  if md.1 = false then (0, md.2.1, md.2.2)
  else
    let r := BlockByteCache.read md.2.1 (data_len + 1)
    if r.1 = 0 then (0, r.2.2.2, md.2.2)
    else
      let rest := read_loop fuel r.2.2.2 md.2.2 (data_len + 1 - r.1)
      (r.1 + rest.1, rest.2.1, rest.2.2)

/-- `ActiveFile::read` on an open file: run the loop on a buffer of
`data_len` bytes.  `data_len + 1` rounds of fuel always suffice. -/
def read (c : Cache) (up : List Pull) (data_len : Nat) : Nat × Cache × List Pull :=
read_loop (data_len + 1) c up data_len

/-- A sequence of `ActiveFile::read` calls with no intervening `reset`,
given by the buffer size of each call; returns the sum of the returned
byte counts. -/
def read_calls : Cache → List Pull → List Nat → Nat
| _, _, [] => 0
| c, up, d :: ds =>
  match read c up d with
  | (n, c1, up1) => n + read_calls c1 up1 ds

theorem read_loop_delta (fuel : Nat) :
    ∀ (c : Cache) (up : List Pull) (d : Nat),
      (read_loop fuel c up d).2.1.total_read =
        c.total_read + (read_loop fuel c up d).1 ∧
      (read_loop fuel c up d).2.1.total_len = c.total_len := by
induction fuel with
| zero =>
  intro c up d
  exact ⟨rfl, rfl⟩
| succ fuel ih =>
  intro c up d
  match d with
  | 0 => exact ⟨rfl, rfl⟩
  | d + 1 =>
    obtain ⟨hmd1, hmd2⟩ := more_data_preserves_counters c up
    simp only [read_loop]
    by_cases h1 : (more_data c up).1 = false
    · rw [if_pos h1]
      refine ⟨?_, ?_⟩
      · dsimp only
        omega
      · dsimp only
        exact hmd2
    · rw [if_neg h1]
      obtain ⟨hrd1, hrd2⟩ := read_counter_delta (more_data c up).2.1 (d + 1)
      by_cases h2 : (BlockByteCache.read (more_data c up).2.1 (d + 1)).1 = 0
      · rw [if_pos h2]
        refine ⟨?_, ?_⟩
        · dsimp only
          omega
        · dsimp only
          rw [hrd2, hmd2]
      · rw [if_neg h2]
        obtain ⟨hr1, hr2⟩ := ih (BlockByteCache.read (more_data c up).2.1 (d + 1)).2.2.2
          (more_data c up).2.2
          (d + 1 - (BlockByteCache.read (more_data c up).2.1 (d + 1)).1)
        refine ⟨?_, ?_⟩
        · dsimp only
          omega
        · dsimp only
          rw [hr2, hrd2, hmd2]

theorem read_loop_respects_ceiling (fuel : Nat) :
    ∀ (c : Cache) (up : List Pull) (d fs : Nat),
      c.total_len = some fs → c.total_read ≤ fs →
      (read_loop fuel c up d).2.1.total_read ≤ fs := by
induction fuel with
| zero =>
  intro c up d fs hlen htr
  exact htr
| succ fuel ih =>
  intro c up d fs hlen htr
  match d with
  | 0 => exact htr
  | d + 1 =>
    obtain ⟨hmd1, hmd2⟩ := more_data_preserves_counters c up
    simp only [read_loop]
    by_cases h1 : (more_data c up).1 = false
    · rw [if_pos h1]
      dsimp only
      omega
    · rw [if_neg h1]
      have hlen1 : (more_data c up).2.1.total_len = some fs := by rw [hmd2, hlen]
      have htr1 : (more_data c up).2.1.total_read ≤ fs := by rw [hmd1]; exact htr
      obtain ⟨hrd1, hrd2⟩ := read_counter_delta (more_data c up).2.1 (d + 1)
      have hceil := read_respects_ceiling (more_data c up).2.1 (d + 1) fs hlen1 htr1
      by_cases h2 : (BlockByteCache.read (more_data c up).2.1 (d + 1)).1 = 0
      · rw [if_pos h2]
        dsimp only
        exact hceil
      · rw [if_neg h2]
        have hlen2 :
            (BlockByteCache.read (more_data c up).2.1 (d + 1)).2.2.2.total_len = some fs := by
          rw [hrd2]
          exact hlen1
        have hrec := ih (BlockByteCache.read (more_data c up).2.1 (d + 1)).2.2.2
          (more_data c up).2.2
          (d + 1 - (BlockByteCache.read (more_data c up).2.1 (d + 1)).1) fs hlen2 hceil
        dsimp only
        exact hrec

theorem read_calls_le (calls : List Nat) :
    ∀ (c : Cache) (up : List Pull) (fs : Nat),
      c.total_len = some fs → c.total_read ≤ fs →
      read_calls c up calls + c.total_read ≤ fs := by
induction calls with
| nil =>
  intro c up fs hlen htr
  simpa [read_calls] using htr
| cons d ds ih =>
  intro c up fs hlen htr
  simp only [read_calls]
  obtain ⟨hdelta1, hdelta2⟩ := read_loop_delta (d + 1) c up d
  have hceil := read_loop_respects_ceiling (d + 1) c up d fs hlen htr
  match h1 : ActiveFile.read c up d with
  | (n, c1, up1) =>
    have h1' : read_loop (d + 1) c up d = (n, c1, up1) := h1
    rw [h1'] at hdelta1 hdelta2 hceil
    simp only at hdelta1 hdelta2 hceil
    have hlen1 : c1.total_len = some fs := by rw [hdelta2, hlen]
    have hrec := ih c1 up1 fs hlen1 hceil
    dsimp only
    omega

/-- C8: for a file opened on a directory entry of size `file_size`
(whose byte cache starts with a zero counter and ceiling `file_size`),
the byte counts returned by any sequence of `ActiveFile::read` calls
without an intervening `reset`, over any upstream sector stream, sum to
at most `file_size`. -/
theorem read_cumulative_le_file_size (file_size : Nat) (up : List Pull) (calls : List Nat) :
    read_calls (initial_cache file_size) up calls ≤ file_size := by
have h := read_calls_le calls (initial_cache file_size) up file_size rfl (Nat.zero_le _)
simpa [initial_cache] using h

end ActiveFile

/-! ## MBR partition view (src/src/mbr.rs) -/

namespace PartitionBlockDevice

/-- The outcome of a `read`/`write` on a `PartitionBlockDevice`:
either the range check rejects the request with `OutOfRange` before the
underlying device is touched, or the request is forwarded to the
underlying device at the translated start index. -/
inductive AccessResult
| outOfRange
| forwarded (device_start : Nat)
deriving DecidableEq

/-- `PartitionBlockDevice::range_check` (mbr.rs, lines 105-119)
followed by the forwarding of `read`/`write` (mbr.rs, lines 127-152):
`last_block = start + len` in `u32` arithmetic (wrap-around), rejected
with `OutOfRange` when it exceeds the partition's `block_count`; the
forwarded start index is `start + lba_start`.  Modelled from the spec
for the absent block module: `BlockIdx + BlockCount` is 32-bit sector
arithmetic (spec section 3). -/
def access (lba_start block_count start len : Nat) : AccessResult :=
if (start + len) % 2 ^ 32 > block_count then .outOfRange
else .forwarded ((start + lba_start) % 2 ^ 32)

/-- C7 counterexample: a one-block read at start index `0xFFFFFFFF` of
a one-block partition has `start + len = 2 ^ 32 > 1 = block_count`, so
the claim demands `OutOfRange`; the `u32` sum wraps to 0 and the code
forwards the access to the device instead. -/
theorem access_overflow_counterexample :
    4294967295 + 1 > 1 ∧
    access 0 1 4294967295 1 = .forwarded 4294967295 := by
refine ⟨by norm_num, ?_⟩
unfold access
norm_num

/-- C7 amended: for every access whose `start + len` does not overflow
`u32`, exceeding `block_count` yields `OutOfRange` (without touching
the device) and any other access is forwarded at `start + lba_start`;
in particular a one-block access at `block_count - 1` is forwarded and,
whenever `block_count + 1` still fits in `u32`, a one-block access at
`block_count` is rejected. -/
theorem access_range_check (lba_start block_count start len : Nat) :
    (start + len < 2 ^ 32 → start + len > block_count →
      access lba_start block_count start len = .outOfRange) ∧
    (start + len ≤ block_count → block_count < 2 ^ 32 →
      access lba_start block_count start len =
        .forwarded ((start + lba_start) % 2 ^ 32)) ∧
    (1 ≤ block_count → block_count < 2 ^ 32 →
      access lba_start block_count (block_count - 1) 1 =
        .forwarded ((block_count - 1 + lba_start) % 2 ^ 32)) ∧
    (block_count + 1 < 2 ^ 32 →
      access lba_start block_count block_count 1 = .outOfRange) := by
refine ⟨fun hov hgt => ?_, fun hle hbc => ?_, fun hbc1 hbc2 => ?_, fun hov => ?_⟩
· unfold access
  rw [Nat.mod_eq_of_lt hov]
  exact if_pos hgt
· unfold access
  rw [Nat.mod_eq_of_lt (by omega)]
  exact if_neg (by omega)
· unfold access
  rw [Nat.mod_eq_of_lt (by omega)]
  exact if_neg (by omega)
· unfold access
  rw [Nat.mod_eq_of_lt (by omega)]
  exact if_pos (by omega)

/-- Witness for the amended C7 theorem on a partition with
`lba_start = 2048` and `block_count = 262144`, exercising all four
conjuncts. -/
theorem access_range_check_witness :
    access 2048 262144 262143 2 = .outOfRange ∧
    access 2048 262144 100 7 = .forwarded ((100 + 2048) % 2 ^ 32) ∧
    access 2048 262144 (262144 - 1) 1 = .forwarded ((262144 - 1 + 2048) % 2 ^ 32) ∧
    access 2048 262144 262144 1 = .outOfRange := by
refine ⟨?_, ?_, ?_, ?_⟩
· exact (access_range_check 2048 262144 262143 2).1 (by norm_num) (by norm_num)
· exact (access_range_check 2048 262144 100 7).2.1 (by norm_num) (by norm_num)
· exact (access_range_check 2048 262144 262143 1).2.2.1 (by norm_num) (by norm_num)
· exact (access_range_check 2048 262144 262144 1).2.2.2 (by norm_num)

end PartitionBlockDevice

/-! ## Cluster to sector mapping (src/src/fat/cluster.rs) -/

namespace Cluster

/-- Modelled from the spec: `BlockIdx::range(count)` from the absent
block module yields the `count` consecutive sectors
`[start, start + count)` (spec sections 3 and 4.4); `BlockIdx` is a
32-bit sector number (spec section 3), so each sector index is taken
modulo `2 ^ 32`. -/
def block_range (start count : Nat) : List Nat :=
(List.range count).map (fun i => (start + i) % 2 ^ 32)

/-- `Cluster::sectors` (src/src/fat/cluster.rs, lines 13-16): the range
of `sectors_per_cluster` sectors starting at
`data_start + (value.saturating_sub(2)) * sectors_per_cluster`
(`Nat` subtraction is exactly `saturating_sub`; the `BlockIdx *
BlockCount` and `BlockIdx + BlockCount` arithmetic is 32-bit, spec
section 3, hence the explicit `% 2 ^ 32`). -/
def sectors (value data_start sectors_per_cluster : Nat) : List Nat :=
block_range ((data_start + ((value - 2) * sectors_per_cluster) % 2 ^ 32) % 2 ^ 32)
  sectors_per_cluster

set_option maxRecDepth 8192 in
/-- C10 counterexample: for the decodable 28-bit cluster number
`0x0FFFFFF0`, 128 sectors per cluster and `data_start = 4096`, the
32-bit start computation `4096 + (0x0FFFFFF0 - 2) * 128` wraps to
sector 1792, below `data_start` — refuting the claim's clauses that the
range starts at `d + (c - 2) * s` and that no yielded sector lies below
`data_start`. -/
theorem sectors_wrap_counterexample :
    2 ≤ 268435440 ∧
    (sectors 268435440 4096 128)[0]? = some 1792 ∧
    1792 < 4096 :=
⟨by decide, by decide, by decide⟩

/-- C10 amended: `Cluster::sectors` yields exactly `s` sectors, and
provided the final sector computation does not overflow `u32`
(`d + (c - 2) * s + s ≤ 2 ^ 32`, with `c - 2` saturating): for a
cluster `c ≥ 2` the `i`-th sector is `d + (c - 2) * s + i`, so the
range starts at `d + (c - 2) * s`; for `c < 2` the saturating
subtraction makes the range start exactly at `d`; and no yielded
sector lies below `data_start`. -/
theorem sectors_exact_range (c d s : Nat) :
    (sectors c d s).length = s ∧
    (2 ≤ c → d + (c - 2) * s + s ≤ 2 ^ 32 → ∀ i, i < s →
      (sectors c d s)[i]? = some (d + (c - 2) * s + i)) ∧
    (c < 2 → d + s ≤ 2 ^ 32 → ∀ i, i < s → (sectors c d s)[i]? = some (d + i)) ∧
    (d + (c - 2) * s + s ≤ 2 ^ 32 → ∀ x ∈ sectors c d s, d ≤ x) := by
refine ⟨?_, fun hc hov i hi => ?_, fun hc hov i hi => ?_, fun hov x hx => ?_⟩
· simp [sectors, block_range]
· simp only [sectors, block_range, List.getElem?_map, List.getElem?_range, hi,
    Option.map_some', Option.some.injEq]
  omega
· have hc2 : c - 2 = 0 := by omega
  simp only [sectors, block_range, hc2, List.getElem?_map, List.getElem?_range, hi,
    Option.map_some', Option.some.injEq]
  omega
· simp only [sectors, block_range, List.mem_map, List.mem_range] at hx
  obtain ⟨i, hi, hix⟩ := hx
  omega

/-- Witness for the amended C10 at cluster 5 and cluster 0 with
`data_start = 100` and 4 sectors per cluster. -/
theorem sectors_exact_range_witness :
    (sectors 5 100 4)[2]? = some (100 + (5 - 2) * 4 + 2) ∧
    (sectors 0 100 4)[1]? = some (100 + 1) ∧
    (∀ x ∈ sectors 5 100 4, 100 ≤ x) ∧
    (sectors 5 100 4).length = 4 :=
⟨(sectors_exact_range 5 100 4).2.1 (by decide) (by decide) 2 (by decide),
 (sectors_exact_range 0 100 4).2.2.1 (by decide) (by decide) 1 (by decide),
 (sectors_exact_range 5 100 4).2.2.2 (by decide),
 (sectors_exact_range 5 100 4).1⟩

end Cluster

/-! ## Directory entries and iteration (src/src/fat/directory.rs) -/

namespace Directory

open BlockByteCache

/-- `PhysicalLocation` (spec section 3): the sector and byte offset
pinning a 32-byte directory slot. -/
structure PhysicalLocation where
  sector : Nat
  byte_offset : Nat
deriving DecidableEq

/-- `DirEntryRaw::set_name` (directory.rs, lines 396-402) acting on the
32-byte slot that starts at `slot_off` inside a sector: the first
`min(name.len, 11)` bytes of the slot are copied from `name`, the
remaining bytes up to index 11 are overwritten with `0x20`, everything
else is left as it was. -/
def set_name_in_sector (sector : Block) (slot_off : Nat) (name : List Nat) : Block :=
fun i =>
if slot_off ≤ i ∧ i < slot_off + min name.length 11 then name.getD (i - slot_off) 0
else if slot_off + min name.length 11 ≤ i ∧ i < slot_off + 11 then 0x20
else sector i

/-- `DirEntry::delete` (directory.rs, lines 235-257): on a successful
read of the sector at `location.sector`, `set_name(&[0x5E])` is applied
to the slot at `location.byte_offset` and the sector is written back
(`some written_sector`); a failed read, or a failed write-back, makes
`delete` return the `DirEntry` to the caller (`none`). -/
def delete (read_result : Option Block) (write_succeeds : Bool) (byte_offset : Nat) :
    Option Block :=
match read_result with
| none => none
| some block =>
  let written := set_name_in_sector block byte_offset [0x5E]
  if write_succeeds then some written else none

/-- A concrete sector whose byte at offset `i` is `i % 256`. -/
def c2_sector : Block := fun i => i % 256

/-- C2 (refuted, code bug): deleting the entry whose slot starts at
byte offset 64 writes `0x5E` (not the claimed `0xE5`) into the slot's
first name byte and additionally overwrites the slot's name bytes 1-10
with `0x20` (byte 65 held 65 before); bytes from slot offset 11 on are
untouched, and a failed device read or write does return the entry to
the caller. -/
theorem delete_writes_5E_and_pads :
    delete (some c2_sector) true 64 = some (set_name_in_sector c2_sector 64 [0x5E]) ∧
    set_name_in_sector c2_sector 64 [0x5E] 64 = 0x5E ∧
    (0x5E : Nat) ≠ 0xE5 ∧
    set_name_in_sector c2_sector 64 [0x5E] 65 = 0x20 ∧
    c2_sector 65 = 65 ∧
    set_name_in_sector c2_sector 64 [0x5E] 75 = c2_sector 75 ∧
    delete none true 64 = none ∧
    delete (some c2_sector) false 64 = none :=
⟨rfl, by decide, by decide, by decide, by decide, by decide, rfl, rfl⟩

/-- `Attributes::is_long_name` after `from_bits_truncate`
(directory.rs, lines 22-30 and 415-417) on a raw 32-byte entry: all
four of READ_ONLY, HIDDEN, SYSTEM and VOLUME_ID are set, i.e. the
attribute byte at offset 11 satisfies `attr & 0x0F == 0x0F`
(`& 0x0F` is `% 16`). -/
def is_long_name (e : List Nat) : Bool :=
e.getD 11 0 % 256 % 16 == 15

/-- `DirEntryInfo` (directory.rs, lines 271-280).  The stored long
name is not retained in this embedding (no claim inspects it); the
remaining fields are decoded as in the source. -/
structure DirEntryInfo where
  main_name : List Nat
  extension : List Nat
  attributes : Nat
  file_size : Nat
  first_cluster : Nat
  location : PhysicalLocation
deriving DecidableEq

/-- `DirEntryInfo::new` (directory.rs, lines 301-339): splits the name
into 8 main and 3 extension bytes, truncates the attribute byte to the
defined flag bits (`& 0x3F`), decodes the file size, and resolves the
first cluster: FAT16 requires the high word to be zero (else the
`Fat16FistClusHiNotZero` error, here `none`), FAT32 combines
`hi << 16 | lo` (equal to `hi * 65536 + lo` as `lo < 2 ^ 16`). -/
def DirEntryInfo.new (ft : FatType) (e : List Nat) (loc : PhysicalLocation) :
    Option DirEntryInfo :=
let clus_hi := u16le (e.getD 20 0) (e.getD 21 0)
let clus_lo := u16le (e.getD 26 0) (e.getD 27 0)
let first_cluster? : Option Nat :=
  match ft with
  | .fat16 => if clus_hi = 0 then some clus_lo else none
  | .fat32 => some (clus_hi * 65536 + clus_lo)
match first_cluster? with
| none => none
| some fc =>
  some
    { main_name := (List.range 8).map (fun j => e.getD j 0 % 256)
      extension := (List.range 3).map (fun j => e.getD (8 + j) 0 % 256)
      attributes := e.getD 11 0 % 256 % 64
      file_size := u32le (e.getD 28 0) (e.getD 29 0) (e.getD 30 0) (e.getD 31 0)
      first_cluster := fc
      location := loc }

/-- `DirEntryInfo::get_free_status` (directory.rs, lines 361-364) with
`ShortNameRaw::is_free` (lines 171-174): the pair
(this entry is free: first name byte in {0x00, 0xE5, 0x05},
all following entries free: first name byte is 0x00). -/
def get_free_status (info : DirEntryInfo) : Bool × Bool :=
let first := info.main_name.getD 0 0
(first == 0x00 || first == 0xE5 || first == 0x05, first == 0x00)

/-- `DirIter::handle_lfn` (directory.rs, lines 506-537): extract the
ordinal (`& 0x40` marks the last on-disk slot and re-initialises the
accumulator; the ordinal is then `(ord & !0x40).wrapping_sub(1)`), and
copy the 5 + 6 + 2 UCS-2 name fragments into the accumulator at
position `13 * ord` when the end index fits below 256. -/
def handle_lfn (e : List Nat) (st : Option (Nat → Nat)) : Option (Nat → Nat) :=
let ord0 := e.getD 0 0 % 256
let is_last := ord0 &&& 0x40 == 0x40
let ord := ((ord0 &&& 0xBF) + 255) % 256
let st1 := if is_last then some (fun _ => 0) else st
match st1 with
| none => none
| some arr =>
  let start := 13 * ord
  if start + 13 ≤ 255 then
    some fun i =>
      if start ≤ i ∧ i < start + 5 then
        u16le (e.getD (1 + 2 * (i - start)) 0) (e.getD (2 + 2 * (i - start)) 0)
      else if start + 5 ≤ i ∧ i < start + 11 then
        u16le (e.getD (14 + 2 * (i - start - 5)) 0) (e.getD (15 + 2 * (i - start - 5)) 0)
      else if start + 11 ≤ i ∧ i < start + 13 then
        u16le (e.getD (28 + 2 * (i - start - 11)) 0) (e.getD (29 + 2 * (i - start - 11)) 0)
      else arr i
  else some arr

/-- The 32-byte read step at the top of `DirIter::next` (directory.rs,
lines 558-565): `more_data` on the byte cache, then a 32-byte `read`;
iteration ends (`none`) when `more_data` reports no data or the read
does not return exactly 32 bytes with a surfaced sector. -/
def read32 (c : Cache) (up : List Pull) : Option (List Nat × Nat × Cache × List Pull) :=
match more_data c up with
| (false, _, _) => none
| (true, c1, up1) =>
  let r := BlockByteCache.read c1 32
  match r.2.2.1 with
  | none => none
  | some cs => if r.1 = 32 then some (r.2.1, cs, r.2.2.2, up1) else none

/-- The full sequence of entries a `for` loop over `DirIter`
(directory.rs, lines 546-598) observes, starting from cache state `c`,
upstream `up`, long-name accumulator `lfn` and
`total_entries_read = k`: LFN slots feed the accumulator; a decode
error or a first name byte 0x00 ends the iteration; a free slot is
skipped with the accumulator consumed; any other slot is emitted with
location (surfaced sector, `total_entries_read * 32 % 512` computed
after the increment), and the accumulator starts empty at the next
`next()` call.  The fuel only bounds the number of 32-byte reads. -/
def dir_iter_all :
    Nat → FatType → Cache → List Pull → Option (Nat → Nat) → Nat → List DirEntryInfo
| 0, _, _, _, _, _ => []
| fuel + 1, ft, c, up, lfn, k =>
  match read32 c up with
  | none => []
  | some (e, cs, c', up') =>
    if is_long_name e then dir_iter_all fuel ft c' up' (handle_lfn e lfn) (k + 1)
    else
      match DirEntryInfo.new ft e { sector := cs, byte_offset := (k + 1) * 32 % 512 } with
      | none => []
      | some info =>
        if (get_free_status info).2 then []
        else if (get_free_status info).1 then dir_iter_all fuel ft c' up' none (k + 1)
        else info :: dir_iter_all fuel ft c' up' none (k + 1)

/-- The cache state `DirIter::new` builds (directory.rs, lines
488-500): `BlockByteCache::new(None, sectors)`, no length ceiling. -/
def dir_cache0 : Cache :=
{ byte_index := 0, current_cache := none, total_read := 0, total_len := none }

theorem DirEntryInfo.new_first_byte (ft : FatType) (e : List Nat) (loc : PhysicalLocation)
    (info : DirEntryInfo) (h : DirEntryInfo.new ft e loc = some info) :
    info.main_name.getD 0 0 = e.getD 0 0 % 256 := by
unfold DirEntryInfo.new at h
cases ft with
| fat16 =>
  simp only at h
  by_cases hhi : u16le (e.getD 20 0) (e.getD 21 0) = 0
  · rw [if_pos hhi] at h
    obtain rfl := Option.some.inj h
    rfl
  · rw [if_neg hhi] at h
    exact absurd h (by simp)
| fat32 =>
  simp only at h
  obtain rfl := Option.some.inj h
  rfl

/-- C6: during directory iteration, for a 32-byte read that yields a
non-LFN entry: a first name byte of 0x00 ends the iteration with
nothing emitted (this also holds when the entry fails to decode, since
decode errors end the iteration too); a first name byte of 0xE5 on an
entry that decodes emits nothing, discards the accumulated long-name
state (the continuation runs with an empty accumulator), and continues
with the next 32-byte entry. -/
theorem dir_iter_free_entry_policy (fuel : Nat) (ft : FatType) (c : Cache) (up : List Pull)
    (lfn : Option (Nat → Nat)) (k : Nat) (e : List Nat) (cs : Nat) (c' : Cache)
    (up' : List Pull)
    (hread : read32 c up = some (e, cs, c', up'))
    (hshort : is_long_name e = false) :
    (e.getD 0 0 % 256 = 0x00 → dir_iter_all (fuel + 1) ft c up lfn k = []) ∧
    (e.getD 0 0 % 256 = 0xE5 →
      DirEntryInfo.new ft e { sector := cs, byte_offset := (k + 1) * 32 % 512 } ≠ none →
      dir_iter_all (fuel + 1) ft c up lfn k = dir_iter_all fuel ft c' up' none (k + 1)) := by
constructor
· intro h0
  simp only [dir_iter_all]
  rw [hread]
  dsimp only
  rw [hshort]
  simp only [Bool.false_eq_true, if_false]
  cases hdec : DirEntryInfo.new ft e { sector := cs, byte_offset := (k + 1) * 32 % 512 } with
  | none => rfl
  | some info =>
    have hfb := DirEntryInfo.new_first_byte ft e _ info hdec
    have hfs2 : (get_free_status info).2 = true := by
      unfold get_free_status
      dsimp only
      rw [hfb, h0]
      rfl
    dsimp only
    rw [hfs2]
    simp
· intro h5 hne
  simp only [dir_iter_all]
  rw [hread]
  dsimp only
  rw [hshort]
  simp only [Bool.false_eq_true, if_false]
  cases hdec : DirEntryInfo.new ft e { sector := cs, byte_offset := (k + 1) * 32 % 512 } with
  | none => exact absurd hdec hne
  | some info =>
    have hfb := DirEntryInfo.new_first_byte ft e _ info hdec
    have hfs2 : (get_free_status info).2 = false := by
      unfold get_free_status
      dsimp only
      rw [hfb, h5]
      rfl
    have hfs1 : (get_free_status info).1 = true := by
      unfold get_free_status
      dsimp only
      rw [hfb, h5]
      rfl
    dsimp only
    rw [hfs2, hfs1]
    simp

/-- A sector whose first slot is a deleted (0xE5) ARCHIVE entry with
first cluster 2, followed by an end-of-directory (0x00) slot. -/
def w_sector : Block := fun i =>
if i = 0 then 0xE5 else if i = 11 then 0x20 else if i = 26 then 2 else 0

/-- Upstream holding `w_sector` as sector 9. -/
def w_up : List Pull := [.sector 9 (some w_sector)]

/-- The 32 bytes `read32` surfaces for the first slot of `w_sector`. -/
def w_e : List Nat := (List.range 32).map (fun j => w_sector (0 + j))

/-- The cache state after `read32` consumed the first slot of
`w_sector`. -/
def w_cache' : Cache :=
{ byte_index := 32, current_cache := some (9, w_sector), total_read := 32, total_len := none }

/-- An all-zero sector: its first slot starts with 0x00. -/
def z_sector : Block := fun _ => 0

/-- Upstream holding `z_sector` as sector 4. -/
def z_up : List Pull := [.sector 4 (some z_sector)]

/-- The 32 bytes `read32` surfaces for the first slot of `z_sector`. -/
def z_e : List Nat := (List.range 32).map (fun j => z_sector (0 + j))

/-- The cache state after `read32` consumed the first slot of
`z_sector`. -/
def z_cache' : Cache :=
{ byte_index := 32, current_cache := some (4, z_sector), total_read := 32, total_len := none }

/-- Witness for C6: a concrete 0x00 entry ends the iteration, and a
concrete deleted (0xE5) entry is skipped with the accumulator
discarded. -/
theorem dir_iter_free_entry_policy_witness :
    is_long_name w_e = false ∧ w_e.getD 0 0 % 256 = 0xE5 ∧
    is_long_name z_e = false ∧ z_e.getD 0 0 % 256 = 0x00 ∧
    dir_iter_all 1 .fat16 dir_cache0 z_up none 0 = [] ∧
    dir_iter_all 2 .fat32 dir_cache0 w_up none 0 = dir_iter_all 1 .fat32 w_cache' [] none 1 :=
⟨by decide, by decide, by decide, by decide,
 (dir_iter_free_entry_policy 0 .fat16 dir_cache0 z_up none 0 z_e 4 z_cache' [] rfl
    (by decide)).1 (by decide),
 (dir_iter_free_entry_policy 1 .fat32 dir_cache0 w_up none 0 w_e 9 w_cache' [] rfl
    (by decide)).2 (by decide) (by decide)⟩

/-- A sector whose first slot is a live ARCHIVE entry named "A" with
first cluster 2, followed by an end-of-directory (0x00) slot. -/
def c3_sector : Block := fun i =>
if i = 0 then 0x41 else if i = 11 then 0x20 else if i = 26 then 2 else 0

/-- Upstream holding `c3_sector` as sector 9. -/
def c3_up : List Pull := [.sector 9 (some c3_sector)]

/-- C3 (refuted, code bug): the single live entry of this directory is
decoded from the 32-byte slot at byte offset 0 of sector 9 (bytes
32..63 of the sector are the 0x00 end marker), yet its emitted location
carries `byte_offset = 32` — the offset of the following slot — because
`total_entries_read` is incremented before the location is derived from
`total_entries_read * 32 % 512`. -/
theorem dir_iter_location_off_by_one :
    dir_iter_all 3 .fat32 dir_cache0 c3_up none 0 =
      [{ main_name := [0x41, 0, 0, 0, 0, 0, 0, 0], extension := [0, 0, 0],
         attributes := 0x20, file_size := 0, first_cluster := 2,
         location := { sector := 9, byte_offset := 32 } }] ∧
    (32 : Nat) ≠ 0 :=
⟨by decide, by decide⟩

end Directory

end SdMmc
